import Mathlib

/-!
Verification development for the Multi-Modal Emotion Fusion and Adaptive
Calibration Engine of the moodsync-app repository.

The definitions below are a shallow embedding of the methods of the
EmotionEngine class (src/src/ai/EmotionEngine.js).  JavaScript numbers are
modelled as rationals (all numeric literals of the engine are exact decimal
fractions); JavaScript division by zero yields NaN, in the rational model
`x / 0 = 0` — every place where this matters is noted at the definition.
Methods that can throw are embedded into `Except`; a method whose body
contains no throw site is embedded as a total function.  Explicit
`throw new Error(...)` sites use `EngineError`; the analytics methods
that call class methods not defined anywhere in the repository (and so
throw a TypeError at run time) use `JsError`.
External TensorFlow models (facial, voice, text, fusion predictors) are
black boxes and appear as function parameters, as do the three
per-modality processing methods, which only wrap those models with I/O.
-/

namespace MoodSync

/-- Probability vectors and feature vectors of the engine. -/
abbrev Vec := List ℚ

/-- `this.emotions.primary` of the EmotionEngine constructor: the fixed
ordered primary emotion label set. -/
def emotionsPrimary : List String :=
  ["happy", "sad", "angry", "fearful", "surprised", "disgusted", "neutral"]

/-- `this.contextualFactors.activity` of the EmotionEngine constructor. -/
def activityFactors : List String :=
  ["working", "relaxing", "exercising", "commuting", "socializing", "sleeping"]

/-- The Big-Five personality profile kept in `this.personalityProfile`.
`lastUpdated` is an ISO timestamp string in the source; it is modelled as a
natural number clock value. -/
structure PersonalityProfile where
  openness : ℚ
  conscientiousness : ℚ
  extraversion : ℚ
  agreeableness : ℚ
  neuroticism : ℚ
  lastUpdated : ℕ
deriving Repr, DecidableEq

/-- `this.calibrationData` as initialised by loadCalibrationData: facial and
voice bias vectors (7 entries each by default) and the adaptation rate.
The unused empty `personalityFactors` map of the source is omitted. -/
structure CalibrationData where
  facialBias : Vec
  voiceBias : Vec
  adaptationRate : ℚ
deriving Repr, DecidableEq

/-- The `context.feedback` object consumed by updateCalibration; its
`correctEmotion` field may be absent (falsy), modelled by `Option`. -/
structure Feedback where
  correctEmotion : Option String
deriving Repr, DecidableEq

/-- The context object of a detection request.  The source reads the hour
and weekday from the wall clock inside encodeContext; they are explicit
fields here. -/
structure Context where
  hour : ℕ
  dayOfWeek : ℕ
  location : Option String
  activity : Option String
  feedback : Option Feedback
deriving Repr, DecidableEq

/-- The per-modality result objects returned by processFacialEmotion,
processVoiceEmotion and processTextSentiment: the (calibrated) probability
vector, the scalar confidence and the modality tag.  The feature vectors
and timestamps they also carry are not consumed by the fusion logic and are
omitted. -/
structure ModalityResult where
  probabilities : Vec
  confidence : ℚ
  modality : String
deriving Repr, DecidableEq

/-- One `{emotion, probability}` entry of analyzeEmotionHierarchy. -/
structure EmotionScore where
  emotion : String
  probability : ℚ
deriving Repr, DecidableEq

/-- The confidence record built by calculateFusionConfidence. -/
structure FusionConfidence where
  overall : ℚ
  modality : ℚ
  fusion : ℚ
  agreement : ℚ
deriving Repr, DecidableEq

/-- The object returned by fuseEmotions.  `modalityContributions` is a
JavaScript object keyed by modality name, modelled as an association list;
the contextualFactors echo, timestamp and processingTime fields are
orchestration data and are omitted. -/
structure FusionResult where
  primaryEmotion : EmotionScore
  secondaryEmotions : List EmotionScore
  probabilities : Vec
  confidence : FusionConfidence
  modalityContributions : List (String × ℚ)
deriving Repr, DecidableEq

/-- The throw sites of the engine: `throw new Error(message)` used when a
required TensorFlow model is not loaded.  No other kind of exception is
raised by the embedded methods. -/
inductive EngineError where
  | notLoaded : String → EngineError
deriving Repr, DecidableEq

/-- Boolean success test for an `Except` value. -/
def isOkE {ε α : Type} : Except ε α → Bool
  | .ok _ => true
  | .error _ => false

/-- `Math.max(...l)` for a nonempty list; the source never applies it to an
empty vector on the paths verified here (JavaScript would give -Infinity,
the model returns 0). -/
def listMax : Vec → ℚ
  | [] => 0
  | x :: xs => xs.foldl max x

/-- `l.indexOf(Math.max(...l))` as used on probability vectors: the first
index of the maximal entry. -/
def argmaxIdx (l : Vec) : ℕ :=
  l.indexOf (listMax l)

/-- `l[i] *= factor` on a JavaScript array, for an index inside the array:
multiply the entry at `i` in place (out-of-range indices leave the list
unchanged; the engine only applies this to 7-entry vectors). -/
def jsMulAt (l : Vec) (i : ℕ) (factor : ℚ) : Vec :=
  l.set i (l.getD i 0 * factor)

/-- applyPersonalityAdjustment (EmotionEngine.js lines 565-580): scale the
happy, sad, angry and fearful entries by the extraversion/neuroticism
factors, then divide the whole vector by its sum.  The source divides
unconditionally: a zero sum gives NaN entries in JavaScript and zeros in
the rational model (`p / 0 = 0`); no exception is raised. -/
def applyPersonalityAdjustment (personality : PersonalityProfile)
    (probabilities : Vec) : Vec :=
  let adjusted := probabilities
  let adjusted := jsMulAt adjusted 0 (1 + personality.extraversion * 0.2)
  let adjusted := jsMulAt adjusted 1 (1 + personality.neuroticism * 0.3)
  let adjusted := jsMulAt adjusted 2 (1 + personality.neuroticism * 0.2)
  let adjusted := jsMulAt adjusted 3 (1 + personality.neuroticism * 0.4)
  let sum := adjusted.foldl (· + ·) 0
  adjusted.map (fun p => p / sum)

/-- updateCalibration (EmotionEngine.js lines 658-675).  The `result`
argument of the source is never read and is dropped.  Absent feedback and
feedback whose label is not in `this.emotions.primary` leave the data
unchanged (the source has no throw site here; saveCalibrationData is I/O
and catches internally).  A recognised label always bumps `facialBias` at
the label index by `adaptationRate * 0.1`, whatever modality the feedback
was about. -/
def updateCalibration (calibrationData : CalibrationData)
    (feedback : Option Feedback) : CalibrationData :=
  match feedback with
  | none => calibrationData
  | some fb =>
    let learningRate := calibrationData.adaptationRate
    match fb.correctEmotion with
    | none => calibrationData
    | some label =>
      let correctIndex := emotionsPrimary.indexOf label
      if correctIndex < emotionsPrimary.length then
        { calibrationData with
          facialBias := calibrationData.facialBias.set correctIndex
            (calibrationData.facialBias.getD correctIndex 0 + learningRate * 0.1) }
      else calibrationData

/-- `Math.max(0, Math.min(1, x))`. -/
def clamp01 (x : ℚ) : ℚ := max 0 (min 1 x)

/-- updatePersonalityProfile (EmotionEngine.js lines 680-705): bump
extraversion by 0.01 on happy/excited, neuroticism by 0.01 on
sad/angry/fearful, then clamp every numeric field of the profile to [0,1]
(lastUpdated is a string in the source and escapes the clamp; it is set to
the current time). -/
def updatePersonalityProfile (profile : PersonalityProfile)
    (primaryEmotion : String) (now : ℕ) : PersonalityProfile :=
  let updateRate : ℚ := 0.01
  let p1 :=
    if primaryEmotion ∈ ["happy", "excited"] then
      { profile with extraversion := profile.extraversion + updateRate }
    else profile
  let p2 :=
    if primaryEmotion ∈ ["sad", "angry", "fearful"] then
      { p1 with neuroticism := p1.neuroticism + updateRate }
    else p1
  { openness := clamp01 p2.openness
    conscientiousness := clamp01 p2.conscientiousness
    extraversion := clamp01 p2.extraversion
    agreeableness := clamp01 p2.agreeableness
    neuroticism := clamp01 p2.neuroticism
    lastUpdated := now }

/-- The nested pairwise loop of calculateModalityAgreement, applied to the
argmax predictions: for each position the inner loop compares the element
with every later element.  Returns (agreements, comparisons). -/
def countAgreements : List ℕ → ℕ × ℕ
  | [] => (0, 0)
  | x :: rest =>
    let tail := countAgreements rest
    (tail.1 + rest.countP (fun y => x == y), tail.2 + rest.length)

/-- calculateModalityAgreement (EmotionEngine.js lines 603-623): 1.0 for
fewer than two modality results, otherwise the fraction of unordered pairs
of results whose probability-vector argmaxes coincide. -/
def calculateModalityAgreement (modalityResults : List ModalityResult) : ℚ :=
  if modalityResults.length < 2 then 1
  else
    let predictions := modalityResults.map (fun r => argmaxIdx r.probabilities)
    let counts := countAgreements predictions
    if counts.2 > 0 then (counts.1 : ℚ) / (counts.2 : ℚ) else 1

/-- calculateFusionConfidence (EmotionEngine.js lines 585-598).  With an
empty modality list the average confidence is 0/0: NaN in JavaScript, 0 in
the rational model; the function still returns a record rather than
raising an error. -/
def calculateFusionConfidence (modalityResults : List ModalityResult)
    (finalProbs : Vec) : FusionConfidence :=
  let modalityConfidences := modalityResults.map (fun r => r.confidence)
  let avgModalityConfidence :=
    modalityConfidences.foldl (· + ·) 0 / (modalityConfidences.length : ℚ)
  let finalConfidence := listMax finalProbs
  let agreement := calculateModalityAgreement modalityResults
  { overall := (avgModalityConfidence + finalConfidence + agreement) / 3
    modality := avgModalityConfidence
    fusion := finalConfidence
    agreement := agreement }

/-- The `{primary, secondary, all}` record of analyzeEmotionHierarchy. -/
structure EmotionHierarchy where
  primary : EmotionScore
  secondary : List EmotionScore
  all : List EmotionScore
deriving Repr, DecidableEq

/-- analyzeEmotionHierarchy (EmotionEngine.js lines 628-639): attach the
primary labels by index, sort by probability descending (the JavaScript
sort is stable), take the head and the next two.  On an empty vector the
source yields undefined for `indexed[0]`; the model returns a dummy score
(never reached on the verified paths, where the fusion vector is concrete
and nonempty). -/
def analyzeEmotionHierarchy (probabilities : Vec) : EmotionHierarchy :=
  let indexed := (probabilities.enum).map
    (fun pi => { emotion := emotionsPrimary.getD pi.1 "", probability := pi.2 : EmotionScore })
  let sorted := indexed.mergeSort (fun a b => b.probability ≤ a.probability)
  { primary := sorted.headD { emotion := "", probability := 0 }
    secondary := (sorted.drop 1).take 2
    all := sorted }

/-- calculateModalityContributions (EmotionEngine.js lines 644-653): each
modality contributes its confidence divided by the total confidence.  With
an empty list the result is the empty map. -/
def calculateModalityContributions (modalityResults : List ModalityResult) :
    List (String × ℚ) :=
  let totalConfidence := (modalityResults.map (fun r => r.confidence)).foldl (· + ·) 0
  modalityResults.map (fun r => (r.modality, r.confidence / totalConfidence))

/-- encodeContext (EmotionEngine.js lines 534-560): a 20-slot vector with
hour/24, weekday/7, home/work one-hot slots and an activity one-hot. -/
def encodeContext (context : Context) : Vec :=
  let encoded : Vec := List.replicate 20 0
  let encoded := encoded.set 0 ((context.hour : ℚ) / 24)
  let encoded := encoded.set 1 ((context.dayOfWeek : ℚ) / 7)
  let encoded :=
    match context.location with
    | some loc =>
      let encoded := encoded.set 2 (if loc = "home" then 1 else 0)
      encoded.set 3 (if loc = "work" then 1 else 0)
    | none => encoded
  match context.activity with
  | some act =>
    let activityIndex := activityFactors.indexOf act
    if activityIndex < activityFactors.length then
      encoded.set (4 + activityIndex) 1
    else encoded
  | none => encoded

/-- prepareFusionInput (EmotionEngine.js lines 514-529): concatenate every
modality probability vector, the context encoding and the five personality
trait scalars (Object.values order: openness, conscientiousness,
extraversion, agreeableness, neuroticism). -/
def prepareFusionInput (personality : PersonalityProfile)
    (modalityResults : List ModalityResult) (context : Context) : Vec :=
  (modalityResults.map (fun r => r.probabilities)).flatten
    ++ encodeContext context
    ++ [personality.openness, personality.conscientiousness,
        personality.extraversion, personality.agreeableness,
        personality.neuroticism]

/-- fuseEmotions (EmotionEngine.js lines 325-367).  The external fusion
model is `fusionModel` (None when not loaded, in which case the method
throws; that is its only throw site).  There is no check on the number of
modality results. -/
def fuseEmotionsE (fusionModel : Option (Vec → Vec))
    (personality : PersonalityProfile)
    (modalityResults : List ModalityResult) (context : Context) :
    Except EngineError FusionResult :=
  match fusionModel with
  | none => .error (.notLoaded "Fusion model not loaded")
  | some model =>
    let fusionInput := prepareFusionInput personality modalityResults context
    let finalProbabilities := model fusionInput
    let personalityAdjusted := applyPersonalityAdjustment personality finalProbabilities
    let confidence := calculateFusionConfidence modalityResults personalityAdjusted
    let emotionAnalysis := analyzeEmotionHierarchy personalityAdjusted
    .ok { primaryEmotion := emotionAnalysis.primary
          secondaryEmotions := emotionAnalysis.secondary
          probabilities := personalityAdjusted
          confidence := confidence
          modalityContributions := calculateModalityContributions modalityResults }

/-- The optional raw inputs of a detection request. -/
structure Inputs where
  image : Option String
  audio : Option String
  text : Option String
deriving Repr, DecidableEq

/-- detectEmotion (EmotionEngine.js lines 372-414): process each supplied
input through its per-modality processor (opaque parameters wrapping the
external TensorFlow models), fuse the collected results, then run the
calibration update on `context.feedback` and the personality update on the
fused primary emotion.  Returns the fused result together with the updated
calibration data and personality profile (held in mutable engine state in
the source). -/
def detectEmotionE
    (procImage procAudio procText : String → Except EngineError ModalityResult)
    (fusionModel : Option (Vec → Vec))
    (calibrationData : CalibrationData) (personality : PersonalityProfile)
    (inputs : Inputs) (context : Context) (now : ℕ) :
    Except EngineError (FusionResult × CalibrationData × PersonalityProfile) := do
  let facialResults ←
    match inputs.image with
    | some img => Except.map (fun r => [r]) (procImage img)
    | none => pure []
  let voiceResults ←
    match inputs.audio with
    | some aud => Except.map (fun r => [r]) (procAudio aud)
    | none => pure []
  let textResults ←
    match inputs.text with
    | some txt => Except.map (fun r => [r]) (procText txt)
    | none => pure []
  let modalityResults := facialResults ++ voiceResults ++ textResults
  let fusedResult ← fuseEmotionsE fusionModel personality modalityResults context
  let calibrationData := updateCalibration calibrationData context.feedback
  let personality := updatePersonalityProfile personality
    fusedResult.primaryEmotion.emotion now
  pure (fusedResult, calibrationData, personality)

/-- `l.slice(-n)`: the last `n` elements (the whole list when shorter). -/
def lastN (n : ℕ) (l : List FusionResult) : List FusionResult :=
  l.drop (l.length - n)

/-- The positive emotion list of assessWellness. -/
def positiveEmotions : List String := ["happy", "excited", "content", "calm"]

/-- Several analytics methods reference helper methods of the class
(identifyWellnessFactors, getWellnessSuggestions, getGenresForEmotion,
getEnergyForStrategy, getValenceForStrategy, findDailyPatterns,
findWeeklyPatterns, findContextualTriggers) that are defined nowhere in
the repository: at run time `this.<name>` is undefined and calling it
throws a TypeError.  These throws are modelled by this error type. -/
inductive JsError where
  | typeError : String → JsError
deriving Repr, DecidableEq

/-- The `{score, level}` head of the object assessWellness starts to
build.  The source never completes this object (see assessWellness): the
record type is the would-be result and is never constructed. -/
structure WellnessReport where
  score : ℚ
  level : String
deriving Repr, DecidableEq

/-- The local wellnessScore variable of assessWellness (EmotionEngine.js
lines 817-835): base 0.7/0.3 by the positivity of the current primary
label, scaled by the overall confidence; blended with the recent positive
ratio only when the history is nonempty.  This value is fully computed by
the source before the method throws (see assessWellness). -/
def wellnessScoreCalc (result : FusionResult)
    (historicalData : List FusionResult) : ℚ :=
  let isPositive := result.primaryEmotion.emotion ∈ positiveEmotions
  let wellnessScore : ℚ := if isPositive then 0.7 else 0.3
  let wellnessScore := wellnessScore * result.confidence.overall
  if historicalData.length > 0 then
    let recentPositive := ((lastN 5 historicalData).filter
      (fun d => d.primaryEmotion.emotion ∈ positiveEmotions)).length
    (wellnessScore + (recentPositive : ℚ) / 5) / 2
  else wellnessScore

/-- The level ternary of the assessWellness return object
(EmotionEngine.js line 839); evaluated by the source before the throwing
factors field. -/
def wellnessLevelCalc (wellnessScore : ℚ) : String :=
  if wellnessScore > 0.7 then "high"
  else if wellnessScore > 0.4 then "medium"
  else "low"

/-- assessWellness (EmotionEngine.js lines 816-843).  The score and the
level ternary are computed (the first two fields of the return object),
but the method never returns them: the factors field then calls
`this.identifyWellnessFactors` (and suggestions would call
`this.getWellnessSuggestions`), neither of which is defined anywhere in
the repository, so every call throws a TypeError while building the
return object. -/
def assessWellness (result : FusionResult)
    (historicalData : List FusionResult) : Except JsError WellnessReport :=
  let wellnessScore := wellnessScoreCalc result historicalData
  let _level := wellnessLevelCalc wellnessScore
  .error (.typeError "this.identifyWellnessFactors is not a function")

/-- calculateEmotionalStability (EmotionEngine.js lines 848-856).
Math.sqrt is modelled by Rat.sqrt (exact on perfect squares; no claim
depends on the numeric value of this field). -/
def calculateEmotionalStability (emotionData : List FusionResult) : ℚ :=
  if emotionData.length < 2 then 1
  else
    let confidences := emotionData.map (fun d => d.confidence.overall)
    let mean := confidences.foldl (· + ·) 0 / (confidences.length : ℚ)
    let variance :=
      (confidences.map (fun conf => (conf - mean) ^ 2)).foldl (· + ·) 0
        / (confidences.length : ℚ)
    1 - Rat.sqrt variance

/-- Keys of a JavaScript object built by insertion: first-occurrence order
of the emotion labels seen in the window. -/
def firstKeys (l : List String) : List String :=
  l.foldl (fun acc x => if x ∈ acc then acc else acc ++ [x]) []

/-- The trend record analyzeTrends starts to build for windows of two or
more entries; never completed by the source (see analyzeTrends). -/
structure Trends where
  mostFrequent : String
  diversity : ℕ
  stability : ℚ
deriving Repr, DecidableEq

/-- analyzeTrends (EmotionEngine.js lines 761-779): returns null (the
absent marker, not an error value) for fewer than two history entries,
before any broken field is reached.  For two or more entries the source
computes the most frequent label (the reduce keeps the accumulator only
on a strictly larger count, so ties go to the later key), the diversity
and the stability — and then throws a TypeError while building the
patterns field: identifyPatterns (lines 861-868) calls
`this.findDailyPatterns`, which is defined nowhere in the repository.
The computed statistics are discarded by the throw. -/
def analyzeTrends (historicalData : List FusionResult) :
    Except JsError (Option Trends) :=
  if historicalData.length < 2 then .ok none
  else
    let recentEmotions := lastN 10 historicalData
    let labels := recentEmotions.map (fun d => d.primaryEmotion.emotion)
    let keys := firstKeys labels
    let count := fun e => labels.count e
    let _mostFrequent :=
      match keys with
      | [] => ""
      | k :: ks => ks.foldl (fun a b => if count a > count b then a else b) k
    let _diversity := keys.length
    let _stability := calculateEmotionalStability recentEmotions
    .error (.typeError "this.findDailyPatterns is not a function")

/-- analyzeCurrentEmotion (EmotionEngine.js lines 748-756) with
assessAuthenticity (lines 873-880) inlined for the authenticity field. -/
structure CurrentEmotion where
  dominantEmotion : EmotionScore
  intensity : ℚ
  stability : ℚ
  complexity : ℕ
  authenticity : ℚ
deriving Repr, DecidableEq

/-- assessAuthenticity (EmotionEngine.js lines 873-880). -/
def assessAuthenticity (result : FusionResult) : ℚ :=
  (result.confidence.agreement + result.confidence.overall) / 2

/-- analyzeCurrentEmotion (EmotionEngine.js lines 748-756). -/
def analyzeCurrentEmotion (result : FusionResult) : CurrentEmotion :=
  { dominantEmotion := result.primaryEmotion
    intensity := result.confidence.overall
    stability := result.confidence.agreement
    complexity := result.secondaryEmotions.length
    authenticity := assessAuthenticity result }

/-- getMusicRecommendation (EmotionEngine.js lines 885-900): the
strategies map and the fallback strategy are computed, and then the
genres field of the return object calls `this.getGenresForEmotion`,
which is defined nowhere in the repository: the method always throws a
TypeError.  The return object is never completed, so the result type
carries no value. -/
def getMusicRecommendation (emotion : String) (confidence : ℚ) :
    Except JsError Unit :=
  let _strategy :=
    if emotion = "sad" then (if confidence > 0.7 then "uplift" else "match")
    else if emotion = "angry" then "release"
    else if emotion = "happy" then "enhance"
    else if emotion = "calm" then "maintain"
    else if emotion = "anxious" then "soothe"
    else "match"
  .error (.typeError "this.getGenresForEmotion is not a function")

/-- generateRecommendations (EmotionEngine.js lines 784-811): the first
recommendation entry evaluates getMusicRecommendation, which always
throws (see above), so the recommendations list is never built. -/
def generateRecommendations (result : FusionResult)
    (_historicalData : List FusionResult) : Except JsError Unit := do
  let _music ← getMusicRecommendation result.primaryEmotion.emotion
    result.confidence.overall
  pure ()

/-- The insight record getEmotionInsights starts to build; never
completed by the source (see getEmotionInsights).  The recommendations
field never holds a value and is not represented. -/
structure EmotionInsights where
  current : CurrentEmotion
  trends : Option Trends
  wellness : WellnessReport
deriving Repr, DecidableEq

/-- getEmotionInsights (EmotionEngine.js lines 734-743).  The fields of
the insights object literal are evaluated in order: current (returns),
trends (null for short windows, otherwise throws), recommendations
(always throws in getMusicRecommendation) and wellness (always throws in
assessWellness) — so every call throws a TypeError and no insights
object is ever returned. -/
def getEmotionInsights (result : FusionResult)
    (historicalData : List FusionResult) : Except JsError EmotionInsights := do
  let current := analyzeCurrentEmotion result
  let trends ← analyzeTrends historicalData
  let _recommendations ← generateRecommendations result historicalData
  let wellness ← assessWellness result historicalData
  pure { current := current, trends := trends, wellness := wellness }

/-! ## Concrete fixtures used by witnesses and counterexamples -/

/-- The neutral personality profile of initializePersonalityProfiling. -/
def P05 : PersonalityProfile := ⟨0.5, 0.5, 0.5, 0.5, 0.5, 0⟩

/-- The default calibration data of loadCalibrationData. -/
def calib0 : CalibrationData := ⟨List.replicate 7 0, List.replicate 7 0, 0.1⟩

/-- A minimal request context with no feedback. -/
def ctx0 : Context := ⟨0, 0, none, none, none⟩

/-- A modality processor that is never invoked on the verified paths. -/
def procNone : String → Except EngineError ModalityResult :=
  fun _ => .error (.notLoaded "model not loaded")

/-- A concrete external fusion predictor putting all mass on happy. -/
def predOne : Vec → Vec := fun _ => [1, 0, 0, 0, 0, 0, 0]

/-- A concrete external fusion predictor returning the all-zero vector. -/
def predZero : Vec → Vec := fun _ => List.replicate 7 0

/-- A fusion result with the given primary label and overall confidence
(the other fields are irrelevant to the wellness and trend analyzers). -/
def mkRes (lbl : String) (conf : ℚ) : FusionResult :=
  ⟨⟨lbl, conf⟩, [], [], ⟨conf, 0, 0, 0⟩, []⟩

/-! ## Helper lemmas -/

/-- All five trait values of a profile lie in the unit interval. -/
def traitsInUnit (p : PersonalityProfile) : Prop :=
  (0 ≤ p.openness ∧ p.openness ≤ 1) ∧
  (0 ≤ p.conscientiousness ∧ p.conscientiousness ≤ 1) ∧
  (0 ≤ p.extraversion ∧ p.extraversion ≤ 1) ∧
  (0 ≤ p.agreeableness ∧ p.agreeableness ≤ 1) ∧
  (0 ≤ p.neuroticism ∧ p.neuroticism ≤ 1)

instance (p : PersonalityProfile) : Decidable (traitsInUnit p) := by
  unfold traitsInUnit; infer_instance

lemma clamp01_mem (x : ℚ) : 0 ≤ clamp01 x ∧ clamp01 x ≤ 1 := by
  unfold clamp01
  constructor
  · exact le_max_left 0 _
  · exact max_le (by norm_num) (min_le_left 1 x)

lemma clamp01_of_mem {x : ℚ} (h0 : 0 ≤ x) (h1 : x ≤ 1) : clamp01 x = x := by
  unfold clamp01
  rw [min_eq_right h1, max_eq_right h0]

/-- One evolve step always lands every trait in the unit interval, because
the source clamps all five fields at the end of the update. -/
lemma updatePersonalityProfile_mem (p : PersonalityProfile) (lbl : String)
    (now : ℕ) : traitsInUnit (updatePersonalityProfile p lbl now) := by
  unfold updatePersonalityProfile traitsInUnit
  refine ⟨?_, ?_, ?_, ?_, ?_⟩ <;>
    simp only [] <;> exact clamp01_mem _

/-- A sequence of evolve calls, each given by a primary label and a clock
value, folded over updatePersonalityProfile. -/
def updatePersonalitySeq (profile : PersonalityProfile)
    (events : List (String × ℕ)) : PersonalityProfile :=
  events.foldl (fun p e => updatePersonalityProfile p e.1 e.2) profile

/-! ## Claims -/

/-- C4: for every personality profile whose five trait values are in
[0,1], after any sequence of evolve (updatePersonalityProfile) calls —
each adding 0.01 to extraversion on happy/excited, 0.01 to neuroticism on
sad/angry/fearful, then clamping every trait to [0,1] — all five trait
values remain within [0,1]. -/
theorem evolve_traits_stay_in_unit_interval (p : PersonalityProfile)
    (events : List (String × ℕ)) (h : traitsInUnit p) :
    traitsInUnit (updatePersonalitySeq p events) := by
  induction events generalizing p with
  | nil => exact h
  | cons e rest ih =>
    exact ih _ (updatePersonalityProfile_mem p e.1 e.2)

/-- Witness for C4 at the neutral profile and a concrete two-event
sequence. -/
theorem evolve_traits_stay_in_unit_interval_witness :
    traitsInUnit P05 ∧
      traitsInUnit (updatePersonalitySeq P05 [("happy", 1), ("sad", 2)]) :=
  ⟨by norm_num [traitsInUnit, P05],
   evolve_traits_stay_in_unit_interval P05 [("happy", 1), ("sad", 2)]
     (by norm_num [traitsInUnit, P05])⟩

/-- C10: on a profile whose traits are already in [0,1], a single
updatePersonalityProfile call returns openness, conscientiousness and
agreeableness unchanged, whatever the primary emotion label (the final
clamp is the identity on values already in range, and the update itself
only touches extraversion, neuroticism and lastUpdated). -/
theorem evolve_frame_openness_conscientiousness_agreeableness
    (p : PersonalityProfile) (lbl : String) (now : ℕ) (h : traitsInUnit p) :
    (updatePersonalityProfile p lbl now).openness = p.openness ∧
    (updatePersonalityProfile p lbl now).conscientiousness = p.conscientiousness ∧
    (updatePersonalityProfile p lbl now).agreeableness = p.agreeableness := by
  obtain ⟨⟨ho0, ho1⟩, ⟨hc0, hc1⟩, _, ⟨ha0, ha1⟩, _⟩ := h
  unfold updatePersonalityProfile
  split <;> split <;>
    exact ⟨clamp01_of_mem ho0 ho1, clamp01_of_mem hc0 hc1, clamp01_of_mem ha0 ha1⟩

/-- Witness for C10 at the neutral profile and the label angry. -/
theorem evolve_frame_witness :
    traitsInUnit P05 ∧
      (updatePersonalityProfile P05 "angry" 7).openness = P05.openness ∧
      (updatePersonalityProfile P05 "angry" 7).conscientiousness = P05.conscientiousness ∧
      (updatePersonalityProfile P05 "angry" 7).agreeableness = P05.agreeableness :=
  ⟨by norm_num [traitsInUnit, P05],
   evolve_frame_openness_conscientiousness_agreeableness P05 "angry" 7
     (by norm_num [traitsInUnit, P05])⟩

/-- A request context whose feedback names a label outside the label set. -/
def ctxBogus : Context := ⟨0, 0, none, none, some ⟨some "bogus"⟩⟩

/-- C2 counterexample: updateCalibration does not update the bias vector
of the fed-back modality — it always writes facialBias.  After feedback
with correct label happy (index 0), the voice bias entry 0 is NOT
increased by adaptationRate * 0.1 (it stays 0 instead of becoming 0.01),
refuting the claim at modality voice. -/
theorem updateCalibration_ignores_modality_counterexample :
    (updateCalibration calib0 (some ⟨some "happy"⟩)).voiceBias.getD 0 0
      ≠ calib0.voiceBias.getD 0 0 + calib0.adaptationRate * 0.1 := by
  have hv : (updateCalibration calib0 (some ⟨some "happy"⟩)).voiceBias
      = calib0.voiceBias := rfl
  rw [hv]
  norm_num [calib0]

/-- C2 amended: updateCalibration consults no modality: for every
recognised correct label it increases facialBias at the label index by
exactly adaptationRate * 0.1, leaves every other facialBias entry
unchanged, and leaves the voice bias vector and the adaptation rate
unchanged — whatever modality the feedback concerned. -/
theorem updateCalibration_updates_facialBias_only
    (c : CalibrationData) (label : String)
    (hmem : label ∈ emotionsPrimary) (hlen : c.facialBias.length = 7) :
    ((updateCalibration c (some ⟨some label⟩)).facialBias.getD
        (emotionsPrimary.indexOf label) 0
      = c.facialBias.getD (emotionsPrimary.indexOf label) 0
          + c.adaptationRate * 0.1) ∧
    (∀ j, j ≠ emotionsPrimary.indexOf label →
      (updateCalibration c (some ⟨some label⟩)).facialBias.getD j 0
        = c.facialBias.getD j 0) ∧
    (updateCalibration c (some ⟨some label⟩)).voiceBias = c.voiceBias ∧
    (updateCalibration c (some ⟨some label⟩)).adaptationRate
      = c.adaptationRate := by
  have hidx : emotionsPrimary.indexOf label < emotionsPrimary.length :=
    List.indexOf_lt_length.mpr hmem
  have hidx7 : emotionsPrimary.indexOf label < c.facialBias.length := by
    rw [hlen]
    simpa [emotionsPrimary] using hidx
  unfold updateCalibration
  dsimp only
  rw [if_pos hidx]
  refine ⟨?_, ?_, rfl, rfl⟩
  · simp [List.getD_eq_getElem?_getD, List.getElem?_set_self hidx7]
  · intro j hj
    simp [List.getD_eq_getElem?_getD, List.getElem?_set_ne (Ne.symm hj)]

/-- Witness for the amended C2 at the default calibration data and the
label sad. -/
theorem updateCalibration_updates_facialBias_only_witness :
    "sad" ∈ emotionsPrimary ∧ calib0.facialBias.length = 7 ∧
    (updateCalibration calib0 (some ⟨some "sad"⟩)).facialBias.getD
        (emotionsPrimary.indexOf "sad") 0
      = calib0.facialBias.getD (emotionsPrimary.indexOf "sad") 0
          + calib0.adaptationRate * 0.1 :=
  ⟨by decide, by decide,
   (updateCalibration_updates_facialBias_only calib0 "sad"
     (by decide) (by decide)).1⟩

/-- C6 counterexample: feedback naming the unknown label bogus does NOT
make the operation fail — the whole detection request completes with an
ok result (no UnknownLabelError exists in the source), and the
calibration data comes back unchanged. -/
theorem feedback_unknown_label_counterexample :
    isOkE (detectEmotionE procNone procNone procNone (some predOne)
        calib0 P05 ⟨none, none, none⟩ ctxBogus 0) = true ∧
    (detectEmotionE procNone procNone procNone (some predOne)
        calib0 P05 ⟨none, none, none⟩ ctxBogus 0).toOption.map
      (fun t => t.2.1) = some calib0 := by
  constructor <;> rfl

/-- C6 amended: feedback with a label outside the emotion label set is
silently ignored: updateCalibration returns the calibration data unchanged
and raises no error; absent feedback is likewise a no-op. -/
theorem updateCalibration_unknown_label_silent
    (c : CalibrationData) (label : String) (h : label ∉ emotionsPrimary) :
    updateCalibration c (some ⟨some label⟩) = c ∧
    updateCalibration c none = c := by
  have hlen : emotionsPrimary.indexOf label = emotionsPrimary.length :=
    List.indexOf_eq_length.mpr h
  constructor
  · unfold updateCalibration
    dsimp only
    rw [hlen, if_neg (lt_irrefl _)]
  · rfl

/-- Witness for the amended C6 at the default calibration data and the
unknown label bogus. -/
theorem updateCalibration_unknown_label_silent_witness :
    "bogus" ∉ emotionsPrimary ∧
    updateCalibration calib0 (some ⟨some "bogus"⟩) = calib0 :=
  ⟨by decide,
   (updateCalibration_unknown_label_silent calib0 "bogus" (by decide)).1⟩

/-- C3: on a 7-entry probability vector with nonnegative entries and
positive sum, and a personality profile with nonnegative extraversion and
neuroticism (the data model keeps traits in [0,1]), the Personality
Adjuster multiplies happy by 1 + extraversion*0.2, sad by
1 + neuroticism*0.3, angry by 1 + neuroticism*0.2, fearful by
1 + neuroticism*0.4, leaves the remaining unnormalised entries unchanged,
and renormalises: the result is exactly the scaled vector divided by its
sum, sums to exactly 1 (hence within the 1e-6 tolerance), and has no
negative entries. -/
theorem applyPersonalityAdjustment_spec
    (p0 p1 p2 p3 p4 p5 p6 : ℚ) (P : PersonalityProfile)
    (h0 : 0 ≤ p0) (h1 : 0 ≤ p1) (h2 : 0 ≤ p2) (h3 : 0 ≤ p3)
    (h4 : 0 ≤ p4) (h5 : 0 ≤ p5) (h6 : 0 ≤ p6)
    (hsum : 0 < p0 + p1 + p2 + p3 + p4 + p5 + p6)
    (he : 0 ≤ P.extraversion) (hn : 0 ≤ P.neuroticism) :
    applyPersonalityAdjustment P [p0, p1, p2, p3, p4, p5, p6] =
      [p0 * (1 + P.extraversion * 0.2)
         / (p0 * (1 + P.extraversion * 0.2) + p1 * (1 + P.neuroticism * 0.3)
            + p2 * (1 + P.neuroticism * 0.2) + p3 * (1 + P.neuroticism * 0.4)
            + p4 + p5 + p6),
       p1 * (1 + P.neuroticism * 0.3)
         / (p0 * (1 + P.extraversion * 0.2) + p1 * (1 + P.neuroticism * 0.3)
            + p2 * (1 + P.neuroticism * 0.2) + p3 * (1 + P.neuroticism * 0.4)
            + p4 + p5 + p6),
       p2 * (1 + P.neuroticism * 0.2)
         / (p0 * (1 + P.extraversion * 0.2) + p1 * (1 + P.neuroticism * 0.3)
            + p2 * (1 + P.neuroticism * 0.2) + p3 * (1 + P.neuroticism * 0.4)
            + p4 + p5 + p6),
       p3 * (1 + P.neuroticism * 0.4)
         / (p0 * (1 + P.extraversion * 0.2) + p1 * (1 + P.neuroticism * 0.3)
            + p2 * (1 + P.neuroticism * 0.2) + p3 * (1 + P.neuroticism * 0.4)
            + p4 + p5 + p6),
       p4 / (p0 * (1 + P.extraversion * 0.2) + p1 * (1 + P.neuroticism * 0.3)
            + p2 * (1 + P.neuroticism * 0.2) + p3 * (1 + P.neuroticism * 0.4)
            + p4 + p5 + p6),
       p5 / (p0 * (1 + P.extraversion * 0.2) + p1 * (1 + P.neuroticism * 0.3)
            + p2 * (1 + P.neuroticism * 0.2) + p3 * (1 + P.neuroticism * 0.4)
            + p4 + p5 + p6),
       p6 / (p0 * (1 + P.extraversion * 0.2) + p1 * (1 + P.neuroticism * 0.3)
            + p2 * (1 + P.neuroticism * 0.2) + p3 * (1 + P.neuroticism * 0.4)
            + p4 + p5 + p6)] ∧
    (applyPersonalityAdjustment P [p0, p1, p2, p3, p4, p5, p6]).foldl
        (· + ·) 0 = 1 ∧
    (∀ x ∈ applyPersonalityAdjustment P [p0, p1, p2, p3, p4, p5, p6],
      0 ≤ x) := by
  have hf0 : (0:ℚ) < 1 + P.extraversion * 0.2 := by nlinarith
  have hf1 : (0:ℚ) < 1 + P.neuroticism * 0.3 := by nlinarith
  have hf2 : (0:ℚ) < 1 + P.neuroticism * 0.2 := by nlinarith
  have hf3 : (0:ℚ) < 1 + P.neuroticism * 0.4 := by nlinarith
  have hS : (0:ℚ) < p0 * (1 + P.extraversion * 0.2)
      + p1 * (1 + P.neuroticism * 0.3) + p2 * (1 + P.neuroticism * 0.2)
      + p3 * (1 + P.neuroticism * 0.4) + p4 + p5 + p6 := by
    nlinarith [mul_nonneg h0 he, mul_nonneg h1 hn, mul_nonneg h2 hn,
      mul_nonneg h3 hn]
  have e1 : applyPersonalityAdjustment P [p0, p1, p2, p3, p4, p5, p6]
      = [p0 * (1 + P.extraversion * 0.2), p1 * (1 + P.neuroticism * 0.3),
         p2 * (1 + P.neuroticism * 0.2), p3 * (1 + P.neuroticism * 0.4),
         p4, p5, p6].map
          (fun p => p / (0 + p0 * (1 + P.extraversion * 0.2)
            + p1 * (1 + P.neuroticism * 0.3) + p2 * (1 + P.neuroticism * 0.2)
            + p3 * (1 + P.neuroticism * 0.4) + p4 + p5 + p6)) := rfl
  have hD : (0:ℚ) + p0 * (1 + P.extraversion * 0.2)
      + p1 * (1 + P.neuroticism * 0.3) + p2 * (1 + P.neuroticism * 0.2)
      + p3 * (1 + P.neuroticism * 0.4) + p4 + p5 + p6
      = p0 * (1 + P.extraversion * 0.2) + p1 * (1 + P.neuroticism * 0.3)
        + p2 * (1 + P.neuroticism * 0.2) + p3 * (1 + P.neuroticism * 0.4)
        + p4 + p5 + p6 := by ring
  have key : applyPersonalityAdjustment P [p0, p1, p2, p3, p4, p5, p6]
      = [p0 * (1 + P.extraversion * 0.2), p1 * (1 + P.neuroticism * 0.3),
         p2 * (1 + P.neuroticism * 0.2), p3 * (1 + P.neuroticism * 0.4),
         p4, p5, p6].map
          (fun p => p / (p0 * (1 + P.extraversion * 0.2)
            + p1 * (1 + P.neuroticism * 0.3) + p2 * (1 + P.neuroticism * 0.2)
            + p3 * (1 + P.neuroticism * 0.4) + p4 + p5 + p6)) := by
    rw [e1, hD]
  refine ⟨by rw [key]; rfl, ?_, ?_⟩
  · rw [key]
    simp only [List.map, List.foldl]
    field_simp
  · rw [key]
    intro x hx
    simp only [List.map, List.mem_cons, List.not_mem_nil, or_false] at hx
    rcases hx with h | h | h | h | h | h | h <;> subst h
    · exact div_nonneg (mul_nonneg h0 hf0.le) hS.le
    · exact div_nonneg (mul_nonneg h1 hf1.le) hS.le
    · exact div_nonneg (mul_nonneg h2 hf2.le) hS.le
    · exact div_nonneg (mul_nonneg h3 hf3.le) hS.le
    · exact div_nonneg h4 hS.le
    · exact div_nonneg h5 hS.le
    · exact div_nonneg h6 hS.le

/-- Witness for C3 at the single-modality scenario vector of the spec and
the neutral personality profile. -/
theorem applyPersonalityAdjustment_spec_witness :
    (applyPersonalityAdjustment P05
        [0.1, 0.6, 0.1, 0.05, 0.05, 0.05, 0.05]).foldl (· + ·) 0 = 1 ∧
    (∀ x ∈ applyPersonalityAdjustment P05
        [0.1, 0.6, 0.1, 0.05, 0.05, 0.05, 0.05], 0 ≤ x) := by
  have h := applyPersonalityAdjustment_spec 0.1 0.6 0.1 0.05 0.05 0.05 0.05
    P05 (by norm_num) (by norm_num) (by norm_num) (by norm_num)
    (by norm_num) (by norm_num) (by norm_num) (by norm_num)
    (by norm_num [P05]) (by norm_num [P05])
  exact ⟨h.2.1, h.2.2⟩

/-- Whether a two-element list (an unordered pair of argmax predictions)
has both components equal. -/
def samePair : List ℕ → Bool
  | [a, b] => a == b
  | _ => false

/-- The comparison count of the nested loop equals the number of unordered
pairs, n choose 2. -/
lemma countAgreements_snd (l : List ℕ) :
    (countAgreements l).2 = l.length.choose 2 := by
  induction l with
  | nil => rfl
  | cons x rest ih =>
    show (countAgreements rest).2 + rest.length = (rest.length + 1).choose 2
    rw [ih, Nat.choose_succ_succ, Nat.choose_one_right]
    norm_num
    omega

/-- The agreement count of the nested loop equals the number of
two-element sublists (unordered pairs of positions) whose predictions
coincide. -/
lemma countAgreements_fst (l : List ℕ) :
    (countAgreements l).1 = (l.sublistsLen 2).countP samePair := by
  induction l with
  | nil => rfl
  | cons x rest ih =>
    show (countAgreements rest).1 + rest.countP (fun y => x == y)
      = ((x :: rest).sublistsLen 2).countP samePair
    rw [List.sublistsLen_succ_cons, List.countP_append, ih]
    congr 1
    rw [List.countP_map, List.sublistsLen_one, List.countP_map,
      List.countP_reverse]
    rfl

/-- The agreement of exactly two modality results is 1 or 0 according to
whether their argmax predictions coincide. -/
lemma calculateModalityAgreement_pair (r1 r2 : ModalityResult) :
    calculateModalityAgreement [r1, r2] =
      if argmaxIdx r1.probabilities = argmaxIdx r2.probabilities
      then 1 else 0 := by
  unfold calculateModalityAgreement
  by_cases h : argmaxIdx r1.probabilities = argmaxIdx r2.probabilities <;>
    simp [countAgreements, List.countP_cons, List.countP_nil, h]

/-- C5: the modality agreement is 1.0 for fewer than two observations,
and otherwise equals the number of unordered observation pairs with
matching probability argmax divided by the total number of unordered
pairs; in particular two observations with the same argmax give 1.0 and
two with different argmaxes give 0.0. -/
theorem calculateModalityAgreement_spec (rs : List ModalityResult) :
    (rs.length < 2 → calculateModalityAgreement rs = 1) ∧
    (2 ≤ rs.length →
      calculateModalityAgreement rs =
        ((((rs.map (fun r => argmaxIdx r.probabilities)).sublistsLen 2).countP
            samePair : ℕ) : ℚ) / ((rs.length.choose 2 : ℕ) : ℚ)) ∧
    (∀ r1 r2 : ModalityResult,
      argmaxIdx r1.probabilities = argmaxIdx r2.probabilities →
        calculateModalityAgreement [r1, r2] = 1) ∧
    (∀ r1 r2 : ModalityResult,
      argmaxIdx r1.probabilities ≠ argmaxIdx r2.probabilities →
        calculateModalityAgreement [r1, r2] = 0) := by
  refine ⟨?_, ?_, ?_, ?_⟩
  · intro h
    unfold calculateModalityAgreement
    rw [if_pos h]
  · intro h
    unfold calculateModalityAgreement
    rw [if_neg (by omega : ¬ rs.length < 2)]
    dsimp only
    have hc2 : (countAgreements
        (rs.map fun r => argmaxIdx r.probabilities)).2 = rs.length.choose 2 := by
      rw [countAgreements_snd, List.length_map]
    have hpos : 0 < rs.length.choose 2 := Nat.choose_pos (by omega)
    rw [if_pos (by rw [hc2]; exact hpos), countAgreements_fst, hc2]
  · intro r1 r2 h
    rw [calculateModalityAgreement_pair, if_pos h]
  · intro r1 r2 h
    rw [calculateModalityAgreement_pair, if_neg h]

/-- Witness for C5: the empty observation list (agreement 1.0) and a
concrete agreeing pair of observations (agreement 1.0). -/
theorem calculateModalityAgreement_spec_witness :
    ([] : List ModalityResult).length < 2 ∧
    calculateModalityAgreement [] = 1 ∧
    calculateModalityAgreement
      [⟨[1, 0], 1, "facial"⟩, ⟨[1, 0], 1, "voice"⟩] = 1 :=
  ⟨by decide, (calculateModalityAgreement_spec []).1 (by decide),
   (calculateModalityAgreement_spec ([] : List ModalityResult)).2.2.1
     ⟨[1, 0], 1, "facial"⟩ ⟨[1, 0], 1, "voice"⟩ rfl⟩

/-- C7 counterexample: a fused vector whose post-adjustment sum is zero
does NOT fail — applyPersonalityAdjustment returns a vector (all-NaN in
JavaScript from the division by zero, all-zero in the rational model) and
the fusion request with a zero-output predictor completes with an ok
result instead of aborting. -/
theorem degenerate_distribution_counterexample :
    applyPersonalityAdjustment P05 (List.replicate 7 0) = List.replicate 7 0 ∧
    isOkE (fuseEmotionsE (some predZero) P05
      [⟨[1, 0, 0, 0, 0, 0, 0], 0.8, "facial"⟩] ctx0) = true := by
  constructor
  · show applyPersonalityAdjustment P05 [0, 0, 0, 0, 0, 0, 0] = _
    simp [applyPersonalityAdjustment, jsMulAt, List.replicate]
  · rfl

/-- C7 amended: the renormalisation of applyPersonalityAdjustment divides
by the vector sum unconditionally; a zero post-adjustment sum raises no
DegenerateDistributionError (no such error exists in the source): the
adjuster still returns a vector and fuseEmotions still returns an ok
FusionResult for every personality profile, observation list and
context. -/
theorem degenerate_distribution_no_error (P : PersonalityProfile)
    (rs : List ModalityResult) (ctx : Context) :
    applyPersonalityAdjustment P (List.replicate 7 0) = List.replicate 7 0 ∧
    isOkE (fuseEmotionsE (some predZero) P rs ctx) = true := by
  constructor
  · show applyPersonalityAdjustment P [0, 0, 0, 0, 0, 0, 0] = _
    simp [applyPersonalityAdjustment, jsMulAt, List.replicate]
  · rfl

/-- C1 counterexample: a detection request with zero usable modality
observations does NOT fail — with a loaded fusion model both fuseEmotions
and the full detectEmotion pipeline return an ok FusionResult (no
InsufficientInputError exists in the source; the modality confidence is
the 0/0 NaN in JavaScript). -/
theorem zero_observations_counterexample :
    isOkE (fuseEmotionsE (some predOne) P05 [] ctx0) = true ∧
    isOkE (detectEmotionE procNone procNone procNone (some predOne)
      calib0 P05 ⟨none, none, none⟩ ctx0 0) = true :=
  ⟨rfl, rfl⟩

/-- C1 amended: neither fuseEmotions nor detectEmotion checks the number
of observations: for every loaded fusion model, calibration data,
personality profile, context and clock, the pipeline with an empty
observation set (no image, audio or text input) completes with an ok
FusionResult. -/
theorem zero_observations_no_error (f : Vec → Vec)
    (procI procA procT : String → Except EngineError ModalityResult)
    (c : CalibrationData) (P : PersonalityProfile) (ctx : Context) (now : ℕ) :
    isOkE (fuseEmotionsE (some f) P [] ctx) = true ∧
    isOkE (detectEmotionE procI procA procT (some f) c P
      ⟨none, none, none⟩ ctx now) = true :=
  ⟨rfl, rfl⟩

/-- C8 counterexample: no wellness score is ever reported — at the
concrete input (happy result, overall confidence 1, empty window)
assessWellness throws a TypeError (identifyWellnessFactors is undefined)
instead of returning a score; moreover even the score the source computes
internally before throwing is 0.7 there, not the blended
(0.7*1 + 0/5)/2 = 0.35 the claim asserts for every window. -/
theorem wellness_empty_window_counterexample :
    assessWellness (mkRes "happy" 1) []
      = .error (.typeError "this.identifyWellnessFactors is not a function") ∧
    wellnessScoreCalc (mkRes "happy" 1) [] = 0.7 ∧
    wellnessScoreCalc (mkRes "happy" 1) [] ≠ ((0.7 * 1 + 0 / 5) / 2 : ℚ) := by
  have h : wellnessScoreCalc (mkRes "happy" 1) [] = 0.7 := by
    norm_num [wellnessScoreCalc, mkRes, positiveEmotions]
  refine ⟨rfl, h, ?_⟩
  rw [h]
  norm_num

/-- C8 amended: assessWellness never reports a score or level — every
call throws a TypeError while building its return object, because
identifyWellnessFactors (and getWellnessSuggestions) are defined nowhere
in the repository.  The score it computes internally before throwing
equals (base*overallConfidence + positiveCountInLast5/5)/2 only when the
history window is nonempty and base*overallConfidence unblended when it
is empty, where base is 0.7 for a current primary label in
{happy, excited, content, calm} and 0.3 otherwise; the internally
computed level is high iff that score exceeds 0.7, medium iff it exceeds
0.4 but not 0.7, and low otherwise. -/
theorem assessWellness_spec (r : FusionResult) (hist : List FusionResult) :
    assessWellness r hist
      = .error (.typeError "this.identifyWellnessFactors is not a function") ∧
    wellnessScoreCalc r hist =
      (if hist.length > 0 then
        ((if r.primaryEmotion.emotion ∈ positiveEmotions then (0.7:ℚ) else 0.3)
            * r.confidence.overall
          + (((lastN 5 hist).filter
              (fun d => d.primaryEmotion.emotion ∈ positiveEmotions)).length : ℚ)
            / 5) / 2
      else
        (if r.primaryEmotion.emotion ∈ positiveEmotions then (0.7:ℚ) else 0.3)
          * r.confidence.overall) ∧
    (wellnessLevelCalc (wellnessScoreCalc r hist) = "high" ↔
      (0.7:ℚ) < wellnessScoreCalc r hist) ∧
    (wellnessLevelCalc (wellnessScoreCalc r hist) = "medium" ↔
      ((0.4:ℚ) < wellnessScoreCalc r hist ∧
        wellnessScoreCalc r hist ≤ 0.7)) ∧
    (wellnessLevelCalc (wellnessScoreCalc r hist) = "low" ↔
      wellnessScoreCalc r hist ≤ 0.4) := by
  have hl : wellnessLevelCalc (wellnessScoreCalc r hist) =
      if (0.7:ℚ) < wellnessScoreCalc r hist then "high"
      else if (0.4:ℚ) < wellnessScoreCalc r hist then "medium"
      else "low" := rfl
  refine ⟨rfl, rfl, ?_, ?_, ?_⟩ <;> rw [hl] <;>
    by_cases h7 : (0.7:ℚ) < wellnessScoreCalc r hist <;>
    by_cases h4 : (0.4:ℚ) < wellnessScoreCalc r hist <;>
    simp [h7, h4] <;> linarith

/-- C9 counterexample: on an empty history window the analyzer does not
deliver the claimed partial result — analyzeTrends itself returns null
(not a NoHistoryError, which does not exist), but getEmotionInsights
throws a TypeError while building the insights object
(getGenresForEmotion is undefined), so no result carrying a wellness
score is ever returned. -/
theorem insights_empty_window_counterexample :
    analyzeTrends ([] : List FusionResult) = .ok none ∧
    getEmotionInsights (mkRes "happy" 1) []
      = .error (.typeError "this.getGenresForEmotion is not a function") :=
  ⟨rfl, rfl⟩

/-- C9 amended: on an empty history window analyzeTrends returns null —
the trend fields (dominant emotion, diversity, stability) are omitted and
no NoHistoryError exists — but getEmotionInsights never delivers the
partial result: for every current result it throws a TypeError while
building the insights object (generateRecommendations reaches the
undefined getGenresForEmotion; assessWellness would likewise throw), so
the wellness score, though computed internally from the single current
result alone, is never returned. -/
theorem insights_empty_window_partial (r : FusionResult) :
    analyzeTrends ([] : List FusionResult) = .ok none ∧
    getEmotionInsights r []
      = .error (.typeError "this.getGenresForEmotion is not a function") ∧
    wellnessScoreCalc r [] =
      (if r.primaryEmotion.emotion ∈ positiveEmotions then (0.7:ℚ) else 0.3)
        * r.confidence.overall :=
  ⟨rfl, rfl, rfl⟩

end MoodSync
